import Mathlib

/-!
Verification of the upload-and-feed core of a FastAPI media-sharing backend
(`app/app.py`, `app/db.py`).

The embedding models the three route handlers `upload_file`, `get_feed` and
`delete_post` as pure Lean functions over an explicit database state
(a list of `Post` rows and a list of `User` rows).  Python's `None`-or-string
values are modelled with `PyVal`; the storage gateway's free-form return shape
(dict or bare-attribute object) is modelled by `UploadResult`; the
environment's nondeterminism (gateway raising, database commit failing,
temp-file staging failing) is a parameter `Env` of the workflow.
-/

namespace App

/-- A persisted `posts` row (`app/db.py`, class `Post`).  `title` and
`content` are nullable columns, hence `Option String`; `url`, `file_type` and
`file_name` are `NOT NULL` columns.  `created_at` is an abstract timestamp. -/
structure Post where
  id : String
  user_id : String
  title : Option String
  content : Option String
  url : String
  file_type : String
  file_name : String
  created_at : Nat
deriving Repr, DecidableEq

/-- A persisted `user` row, restricted to the fields the core reads. -/
structure UserRec where
  id : String
  email : String
deriving Repr, DecidableEq

/-- A Python value that is either `None` or a string, as found in the
gateway's `url`/`name` fields. -/
inductive PyVal
  | vnone
  | vstr (s : String)
deriving Repr, DecidableEq

/-- Python truthiness of a `None`-or-string value: `None` and `""` are falsy. -/
def PyVal.truthy : PyVal → Bool
  | .vnone => false
  | .vstr s => !(s == "")

/-- Whether the gateway's result arrived as a dict or as a bare object. -/
inductive ResultShape
  | dict
  | obj
deriving Repr, DecidableEq

/-- The gateway's result.  A field of value `none` means the key/attribute is
absent; `some v` means it is present with Python value `v` (possibly `None`). -/
structure UploadResult where
  shape : ResultShape
  urlField : Option PyVal
  nameField : Option PyVal
deriving Repr, DecidableEq

/-- `upload_result.get('url')` (dict) and `getattr(upload_result, 'url', None)`
(object) agree: absent yields `None`, otherwise the stored value
(`app/app.py` lines 83-88). -/
def extractUrl (r : UploadResult) : PyVal :=
  match r.urlField with
  | none => .vnone
  | some v => v

/-- Name extraction, `app/app.py` lines 83-88.  Dict shape:
`upload_result.get('name') or file.filename` — any falsy value (absent key,
`None`, `""`) falls back to the filename.  Object shape:
`getattr(upload_result, 'name', file.filename)` — the fallback fires only when
the attribute is absent; a present `None` or `""` is kept as-is. -/
def extractName (r : UploadResult) (filename : String) : PyVal :=
  match r.shape with
  | .dict =>
      let g := r.nameField.getD .vnone
      if g.truthy then g else .vstr filename
  | .obj =>
      match r.nameField with
      | none => .vstr filename
      | some v => v

/-- `"video" if file.content_type and file.content_type.startswith("video/")
else "image"` (`app/app.py` line 95).  An absent or empty content type is
falsy, giving `"image"`. -/
def fileTypeOf (ct : Option String) : String :=
  match ct with
  | none => "image"
  | some s => if s.startsWith "video/" then "video" else "image"

/-- Behaviour of the gateway call `imagekit.upload_file(...)`: it either
raises (network/auth/quota failure) or returns a result value. -/
inductive GatewayOutcome
  | raises
  | returns (r : UploadResult)
deriving Repr, DecidableEq

/-- Environmental nondeterminism of one upload invocation: whether creating
the staging temp file succeeds, what the gateway does, and whether the
database commit succeeds (given type-valid values). -/
structure Env where
  stagingOk : Bool
  gateway : GatewayOutcome
  dbCommitOk : Bool
deriving Repr, DecidableEq

/-- The multipart request to `POST /upload`: the uploaded file's name and
declared content type, the optional form fields, and the authenticated
caller's id. -/
structure UploadRequest where
  filename : String
  contentType : Option String
  title : Option String
  content : Option String
  userId : String
deriving Repr, DecidableEq

/-- The JSON object returned by `upload_file` on success
(`app/app.py` lines 111-120), without the timestamp field. -/
structure UploadPayload where
  id : String
  title : Option String
  content : Option String
  url : String
  file_type : String
  file_name : String
  user_id : String
deriving Repr, DecidableEq

/-- Outcome of the upload route: the success payload, or an
`HTTPException(status, detail)`. -/
inductive UploadResponse
  | ok (p : UploadPayload)
  | err (status : Nat) (detail : String)
deriving Repr, DecidableEq

/-- One complete run of the upload route: the HTTP outcome, the resulting
`posts` table, and the resource-lifecycle facts of the invocation
(staging temp file created/deleted, read handle opened/closed). -/
structure UploadRun where
  response : UploadResponse
  db : List Post
  tempCreated : Bool
  tempDeleted : Bool
  handleOpened : Bool
  handleClosed : Bool
deriving Repr, DecidableEq

/-- The `finally` block of `upload_file` (`app/app.py` lines 128-134) runs on
every exit once staging and the handle-open have happened: it closes the
handle and unlinks the temp file. -/
def cleanupDone (resp : UploadResponse) (db : List Post) : UploadRun :=
  { response := resp, db := db,
    tempCreated := true, tempDeleted := true,
    handleOpened := true, handleClosed := true }

/-- The `POST /upload` handler `upload_file` (`app/app.py` lines 57-134).
`newId` and `now` stand for the server-generated id and timestamp of the
inserted row.  Control flow follows the source: stage the file, call the
gateway, extract `url`/`name` defensively, fail with 500 when `url` is falsy,
derive `file_type`, insert the `Post` row (rolling back to an unchanged table
and a 500 on any commit failure, including the `NOT NULL` violation when the
extracted name is `None`), and return the row's fields.  The `finally`
cleanup is `cleanupDone`; when staging itself fails no temp file or handle
exists, and the generic `except` yields a 500. -/
def upload_file (req : UploadRequest) (env : Env) (db : List Post)
    (newId : String) (now : Nat) : UploadRun :=
  if env.stagingOk = false then
    { response := .err 500 "An error occurred: could not stage upload",
      db := db, tempCreated := false, tempDeleted := false,
      handleOpened := false, handleClosed := false }
  else
    match env.gateway with
    | .raises => cleanupDone (.err 500 "An error occurred: upload failed") db
    | .returns r =>
      match extractUrl r with
      | .vnone => cleanupDone (.err 500 "File upload failed - no URL returned") db
      | .vstr u =>
        if u = "" then
          cleanupDone (.err 500 "File upload failed - no URL returned") db
        else
          match extractName r req.filename with
          | .vnone =>
              cleanupDone
                (.err 500 "An error occurred: null value in column file_name") db
          | .vstr n =>
            if env.dbCommitOk = false then
              cleanupDone (.err 500 "An error occurred: database commit failed") db
            else
              let post : Post :=
                { id := newId, user_id := req.userId,
                  title := some (req.title.getD ""),
                  content := some (req.content.getD ""),
                  url := u, file_type := fileTypeOf req.contentType,
                  file_name := n, created_at := now }
              cleanupDone
                (.ok { id := newId, title := post.title, content := post.content,
                       url := post.url, file_type := post.file_type,
                       file_name := post.file_name, user_id := post.user_id })
                (db ++ [post])

/-- Outcome of `DELETE /post/{post_id}`: the success body `{"detail": ...}`
(FastAPI's default status 200), or an `HTTPException`. -/
inductive DeleteResult
  | ok (detail : String)
  | err (status : Nat) (detail : String)
deriving Repr, DecidableEq

/-- HTTP status of a delete outcome.  The handler returns a plain dict on
success, so FastAPI reports status 200. -/
def DeleteResult.status : DeleteResult → Nat
  | .ok _ => 200
  | .err s _ => s

/-- The `DELETE /post/{post_id}` handler `delete_post`
(`app/app.py` lines 174-193): 404 when no row matches, 403 when the caller is
not the owner, otherwise delete the row, commit, and return the detail
message. -/
def delete_post (postId callerId : String) (db : List Post) :
    DeleteResult × List Post :=
  match db.find? (fun p => p.id == postId) with
  | none => (.err 404 "Post not found", db)
  | some p =>
    if callerId == p.user_id then
      (.ok "Post deleted successfully", db.eraseP (fun q => q.id == postId))
    else
      (.err 403 "Not authorized to delete this post", db)

/-- The dict comprehension `{str(u.id): u.email for u in users}` followed by
`.get(key, "Unknown")` without the default: with duplicate keys the last
entry wins, hence the reversed search. -/
def userEmailDict (users : List UserRec) (uid : String) : Option String :=
  (users.reverse.find? (fun u => u.id == uid)).map (fun u => u.email)

/-- The feed's post ordering: `created_at` descending. -/
def feedOrder (a b : Post) : Prop := b.created_at ≤ a.created_at

instance : DecidableRel feedOrder := fun a b =>
  inferInstanceAs (Decidable (b.created_at ≤ a.created_at))

instance : IsTotal Post feedOrder :=
  ⟨fun a b => Nat.le_total b.created_at a.created_at⟩

instance : IsTrans Post feedOrder :=
  ⟨fun _ _ _ hab hbc => Nat.le_trans hbc hab⟩

/-- One element of the feed response (`app/app.py` lines 155-169): every
`Post` column plus `is_owner` and `email`. -/
structure DecoratedPost where
  id : String
  user_id : String
  title : Option String
  content : Option String
  url : String
  file_type : String
  file_name : String
  created_at : Nat
  is_owner : Bool
  email : String
deriving Repr, DecidableEq

/-- Builds one feed entry from a post: `is_owner` is
`post.user_id == user.id` and `email` is
`user_dict.get(str(post.user_id), "Unknown")`. -/
def decorate (callerId : String) (users : List UserRec) (p : Post) :
    DecoratedPost :=
  { id := p.id, user_id := p.user_id, title := p.title, content := p.content,
    url := p.url, file_type := p.file_type, file_name := p.file_name,
    created_at := p.created_at,
    is_owner := p.user_id == callerId,
    email := (userEmailDict users p.user_id).getD "Unknown" }

/-- Projection of a feed entry back to its underlying row. -/
def DecoratedPost.toPost (d : DecoratedPost) : Post :=
  { id := d.id, user_id := d.user_id, title := d.title, content := d.content,
    url := d.url, file_type := d.file_type, file_name := d.file_name,
    created_at := d.created_at }

/-- The `GET /feed` handler `get_feed` (`app/app.py` lines 137-171): read all
posts ordered by `created_at` descending, read all users, decorate each post,
and return `{"posts": ..., "count": len(...)}`. -/
def get_feed (callerId : String) (db : List Post) (users : List UserRec) :
    List DecoratedPost × Nat :=
  let postsData := (List.insertionSort feedOrder db).map (decorate callerId users)
  (postsData, postsData.length)

/-! ### Helper lemmas -/

/-- The `Post` row inserted by a successful upload. -/
def insertedPost (req : UploadRequest) (newId : String) (now : Nat)
    (u n : String) : Post :=
  { id := newId, user_id := req.userId,
    title := some (req.title.getD ""),
    content := some (req.content.getD ""),
    url := u, file_type := fileTypeOf req.contentType,
    file_name := n, created_at := now }

/-- The payload returned by a successful upload. -/
def okPayload (req : UploadRequest) (newId : String) (u n : String) :
    UploadPayload :=
  { id := newId, title := some (req.title.getD ""),
    content := some (req.content.getD ""), url := u,
    file_type := fileTypeOf req.contentType, file_name := n,
    user_id := req.userId }

theorem upload_file_run_eq (req : UploadRequest) (db : List Post)
    (newId : String) (now : Nat) (r : UploadResult) (dbOk : Bool) (u n : String)
    (hu : extractUrl r = .vstr u) (hne : ¬ u = "")
    (hn : extractName r req.filename = .vstr n) :
    upload_file req ⟨true, .returns r, dbOk⟩ db newId now =
      (if dbOk = false then
        cleanupDone (.err 500 "An error occurred: database commit failed") db
      else
        cleanupDone (.ok (okPayload req newId u n))
          (db ++ [insertedPost req newId now u n])) := by
  simp only [upload_file, hu, hn, okPayload, insertedPost]
  simp [hne]

theorem upload_file_ok_inv (req : UploadRequest) (env : Env) (db : List Post)
    (newId : String) (now : Nat) (pay : UploadPayload)
    (h : (upload_file req env db newId now).response = .ok pay) :
    ∃ r u n, env = ⟨true, .returns r, true⟩ ∧
      extractUrl r = .vstr u ∧ ¬ u = "" ∧
      extractName r req.filename = .vstr n ∧
      pay = okPayload req newId u n ∧
      (upload_file req env db newId now).db =
        db ++ [insertedPost req newId now u n] := by
  obtain ⟨sOk, gw, dbOk⟩ := env
  cases sOk with
  | false => simp [upload_file] at h
  | true =>
    cases gw with
    | raises => simp [upload_file, cleanupDone] at h
    | returns r =>
      cases hu : extractUrl r with
      | vnone => simp [upload_file, cleanupDone, hu] at h
      | vstr u =>
        by_cases hue : u = ""
        · simp [upload_file, cleanupDone, hu, hue] at h
        · cases hn : extractName r req.filename with
          | vnone => simp [upload_file, cleanupDone, hu, hn, hue] at h
          | vstr n =>
            cases dbOk with
            | false => simp [upload_file, cleanupDone, hu, hn, hue] at h
            | true =>
              rw [upload_file_run_eq req db newId now r true u n hu hue hn] at h
              simp only [Bool.true_eq_false, if_false, cleanupDone] at h
              refine ⟨r, u, n, rfl, hu, hue, hn, (UploadResponse.ok.inj h).symm, ?_⟩
              rw [upload_file_run_eq req db newId now r true u n hu hue hn]
              simp [cleanupDone]

theorem fileTypeOf_video_iff (ct : Option String) :
    fileTypeOf ct = "video" ↔ ∃ s, ct = some s ∧ s.startsWith "video/" = true := by
  cases ct with
  | none =>
    simp only [fileTypeOf]
    constructor
    · intro h; exact absurd h (by decide)
    · rintro ⟨s, hs, _⟩; exact absurd hs (by simp)
  | some s =>
    by_cases h : s.startsWith "video/"
    · simp [fileTypeOf, h]
    · simp only [fileTypeOf, h, if_false]
      constructor
      · intro hcon; exact absurd hcon (by decide)
      · rintro ⟨t, ht, hstart⟩
        cases Option.some.inj ht
        exact absurd hstart (by simp [h])

theorem fileTypeOf_mem (ct : Option String) :
    fileTypeOf ct = "image" ∨ fileTypeOf ct = "video" := by
  cases ct with
  | none => left; rfl
  | some s =>
    simp only [fileTypeOf]
    split
    · right; rfl
    · left; rfl

/-! ### Concrete inputs used by witnesses and counterexamples -/

/-- A well-formed multipart request (content type left absent). -/
def reqW : UploadRequest :=
  { filename := "a.png", contentType := none, title := some "T",
    content := none, userId := "u1" }

/-- A dict-shaped gateway result with a proper url and name. -/
def resW : UploadResult :=
  { shape := .dict, urlField := some (.vstr "https://ik.io/a.png"),
    nameField := some (.vstr "a_1.png") }

/-- A benign environment: staging, gateway and commit all succeed. -/
def envW : Env := { stagingOk := true, gateway := .returns resW, dbCommitOk := true }

/-- The payload the benign run returns. -/
def payW : UploadPayload := okPayload reqW "id1" "https://ik.io/a.png" "a_1.png"

/-! ### C1 -/

/-- C1: for every upload request that completes the workflow, the created
Post's `file_type` is `"video"` iff the declared content type starts with
`"video/"`; an absent content type yields `"image"`; `file_type` is always one
of `{image, video}`, in the returned payload and in the inserted row alike. -/
theorem C1_upload_file_type (req : UploadRequest) (env : Env) (db : List Post)
    (newId : String) (now : Nat) (pay : UploadPayload)
    (h : (upload_file req env db newId now).response = .ok pay) :
    (pay.file_type = "video" ↔
      ∃ s, req.contentType = some s ∧ s.startsWith "video/" = true) ∧
    (req.contentType = none → pay.file_type = "image") ∧
    (pay.file_type = "image" ∨ pay.file_type = "video") ∧
    ∃ p, (upload_file req env db newId now).db = db ++ [p] ∧
      p.file_type = pay.file_type := by
  obtain ⟨r, u, n, henv, hu, hue, hn, hpay, hdb⟩ :=
    upload_file_ok_inv req env db newId now pay h
  subst hpay
  refine ⟨?_, ?_, ?_, ⟨insertedPost req newId now u n, hdb, rfl⟩⟩
  · simpa [okPayload] using fileTypeOf_video_iff req.contentType
  · intro hct; simp [okPayload, fileTypeOf, hct]
  · simpa [okPayload] using fileTypeOf_mem req.contentType

/-- Witness for C1 at a concrete benign run. -/
theorem C1_upload_file_type_witness :
    (upload_file reqW envW [] "id1" 5).response = .ok payW ∧
    (payW.file_type = "image" ∨ payW.file_type = "video") := by
  have h : (upload_file reqW envW [] "id1" 5).response = .ok payW := by decide
  exact ⟨h, (C1_upload_file_type reqW envW [] "id1" 5 payW h).2.2.1⟩

/-! ### C2 -/

theorem upload_file_err_inv (req : UploadRequest) (env : Env) (db : List Post)
    (newId : String) (now : Nat) (s : Nat) (d : String)
    (h : (upload_file req env db newId now).response = .err s d) :
    s = 500 ∧ (upload_file req env db newId now).db = db := by
  obtain ⟨sOk, gw, dbOk⟩ := env
  cases sOk with
  | false =>
    refine ⟨?_, rfl⟩
    simpa [upload_file] using ((UploadResponse.err.inj h).1).symm
  | true =>
    cases gw with
    | raises =>
      exact ⟨by simpa [upload_file, cleanupDone] using
        ((UploadResponse.err.inj h).1).symm, rfl⟩
    | returns r =>
      cases hu : extractUrl r with
      | vnone =>
        rw [show (upload_file req ⟨true, .returns r, dbOk⟩ db newId now) =
            cleanupDone (.err 500 "File upload failed - no URL returned") db by
          simp [upload_file, hu]] at h ⊢
        exact ⟨((UploadResponse.err.inj h).1).symm, rfl⟩
      | vstr u =>
        by_cases hue : u = ""
        · rw [show (upload_file req ⟨true, .returns r, dbOk⟩ db newId now) =
              cleanupDone (.err 500 "File upload failed - no URL returned") db by
            simp [upload_file, hu, hue]] at h ⊢
          exact ⟨((UploadResponse.err.inj h).1).symm, rfl⟩
        · cases hn : extractName r req.filename with
          | vnone =>
            rw [show (upload_file req ⟨true, .returns r, dbOk⟩ db newId now) =
                cleanupDone
                  (.err 500 "An error occurred: null value in column file_name")
                  db by
              simp [upload_file, hu, hue, hn]] at h ⊢
            exact ⟨((UploadResponse.err.inj h).1).symm, rfl⟩
          | vstr n =>
            cases dbOk with
            | false =>
              rw [upload_file_run_eq req db newId now r false u n hu hue hn] at h ⊢
              exact ⟨by simpa [cleanupDone] using
                ((UploadResponse.err.inj (by simpa [cleanupDone] using h)).1).symm,
                by simp [cleanupDone]⟩
            | true =>
              rw [upload_file_run_eq req db newId now r true u n hu hue hn] at h
              simp [cleanupDone] at h

/-- C2: every upload invocation that fails — the gateway raises, the gateway
returns no (truthy) url, or the database commit fails — surfaces a 500 error
and leaves the set of Post rows unchanged; no Post row ever references a
failed upload. -/
theorem C2_failure_atomic (req : UploadRequest) (env : Env) (db : List Post)
    (newId : String) (now : Nat) :
    (∀ s d, (upload_file req env db newId now).response = .err s d →
      s = 500 ∧ (upload_file req env db newId now).db = db) ∧
    (env.gateway = .raises →
      ∀ pay, ¬ (upload_file req env db newId now).response = .ok pay) ∧
    (∀ r, env.gateway = .returns r → (extractUrl r).truthy = false →
      ∀ pay, ¬ (upload_file req env db newId now).response = .ok pay) ∧
    (env.dbCommitOk = false →
      ∀ pay, ¬ (upload_file req env db newId now).response = .ok pay) := by
  refine ⟨fun s d h => upload_file_err_inv req env db newId now s d h, ?_, ?_, ?_⟩
  · intro hg pay h
    obtain ⟨r, u, n, henv, _, _, _, _, _⟩ :=
      upload_file_ok_inv req env db newId now pay h
    rw [henv] at hg
    exact GatewayOutcome.noConfusion hg
  · intro r hg htr pay h
    obtain ⟨r', u, n, henv, hu, hue, _, _, _⟩ :=
      upload_file_ok_inv req env db newId now pay h
    rw [henv] at hg
    cases GatewayOutcome.returns.inj hg
    rw [hu] at htr
    simp [PyVal.truthy] at htr
    exact hue htr
  · intro hdb pay h
    obtain ⟨r, u, n, henv, _, _, _, _, _⟩ :=
      upload_file_ok_inv req env db newId now pay h
    rw [henv] at hdb
    simp at hdb

/-- An environment whose gateway raises. -/
def envRaiseW : Env := { stagingOk := true, gateway := .raises, dbCommitOk := true }

/-- Witness for C2: the gateway-raises run yields status 500, leaves the
table unchanged, and produces no success payload. -/
theorem C2_failure_atomic_witness :
    (500 = 500 ∧ (upload_file reqW envRaiseW [] "id1" 5).db = []) ∧
    ¬ (upload_file reqW envRaiseW [] "id1" 5).response = .ok payW := by
  have h := C2_failure_atomic reqW envRaiseW [] "id1" 5
  exact ⟨h.1 500 "An error occurred: upload failed" (by decide), h.2.1 rfl payW⟩

/-! ### C3 -/

/-- C3: on every successful upload, the `url` of the returned payload and of
the persisted Post row is exactly the value extracted from the gateway's
result, with no transformation applied. -/
theorem C3_url_untransformed (req : UploadRequest) (env : Env) (db : List Post)
    (newId : String) (now : Nat) (pay : UploadPayload) (r : UploadResult)
    (hg : env.gateway = .returns r)
    (h : (upload_file req env db newId now).response = .ok pay) :
    extractUrl r = .vstr pay.url ∧
    ∃ p, (upload_file req env db newId now).db = db ++ [p] ∧ p.url = pay.url := by
  obtain ⟨r', u, n, henv, hu, hue, hn, hpay, hdb⟩ :=
    upload_file_ok_inv req env db newId now pay h
  rw [henv] at hg
  cases GatewayOutcome.returns.inj hg
  subst hpay
  exact ⟨hu, insertedPost req newId now u n, hdb, rfl⟩

/-- Witness for C3 at the concrete benign run. -/
theorem C3_url_untransformed_witness :
    (upload_file reqW envW [] "id1" 5).response = .ok payW ∧
    extractUrl resW = .vstr payW.url := by
  have h : (upload_file reqW envW [] "id1" 5).response = .ok payW := by decide
  exact ⟨h, (C3_url_untransformed reqW envW [] "id1" 5 payW resW rfl h).1⟩

/-! ### C4 -/

/-- C4: on every exit path of the upload workflow (success, gateway failure,
missing url, persistence failure) the staging temp file is deleted and the
open handle closed — exactly when they were created/opened, i.e. whenever
staging succeeded; when staging itself failed there is nothing to clean. -/
theorem C4_cleanup (req : UploadRequest) (env : Env) (db : List Post)
    (newId : String) (now : Nat) :
    (upload_file req env db newId now).tempCreated = env.stagingOk ∧
    (upload_file req env db newId now).tempDeleted = env.stagingOk ∧
    (upload_file req env db newId now).handleOpened = env.stagingOk ∧
    (upload_file req env db newId now).handleClosed = env.stagingOk := by
  obtain ⟨sOk, gw, dbOk⟩ := env
  cases sOk with
  | false => simp [upload_file]
  | true =>
    cases gw with
    | raises => simp [upload_file, cleanupDone]
    | returns r =>
      cases hu : extractUrl r with
      | vnone => simp [upload_file, cleanupDone, hu]
      | vstr u =>
        by_cases hue : u = ""
        · simp [upload_file, cleanupDone, hu, hue]
        · cases hn : extractName r req.filename with
          | vnone => simp [upload_file, cleanupDone, hu, hue, hn]
          | vstr n =>
            cases dbOk with
            | false => simp [upload_file, cleanupDone, hu, hue, hn]
            | true => simp [upload_file, cleanupDone, hu, hue, hn]

/-! ### C5 -/

theorem find?_eraseP_of_nodup (postId : String) (db : List Post)
    (hnd : (db.map Post.id).Nodup) :
    (db.eraseP (fun q => q.id == postId)).find? (fun q => q.id == postId) =
      none := by
  induction db with
  | nil => rfl
  | cons a l ih =>
    simp only [List.map_cons, List.nodup_cons] at hnd
    by_cases ha : (a.id == postId) = true
    · rw [List.eraseP_cons_of_pos (p := fun q : Post => q.id == postId) ha]
      rw [List.find?_eq_none]
      intro x hx hpx
      have hxa : x.id = a.id := by
        rw [eq_of_beq hpx, eq_of_beq ha]
      exact hnd.1 (hxa ▸ List.mem_map_of_mem Post.id hx)
    · rw [List.eraseP_cons_of_neg (by simpa using ha)]
      rw [List.find?_cons_of_neg _ (by simpa using ha)]
      exact ih hnd.2

/-- C5: deleting a post that does not exist fails with 404 and changes
nothing; deleting someone else's post fails with 403 and changes nothing;
deleting one's own post succeeds and the post becomes unretrievable (its id
no longer matches any row). -/
theorem C5_delete_post (postId callerId : String) (db : List Post)
    (hnd : (db.map Post.id).Nodup) :
    (db.find? (fun p => p.id == postId) = none →
      delete_post postId callerId db = (.err 404 "Post not found", db)) ∧
    (∀ p, db.find? (fun q => q.id == postId) = some p → ¬ callerId = p.user_id →
      delete_post postId callerId db =
        (.err 403 "Not authorized to delete this post", db)) ∧
    (∀ p, db.find? (fun q => q.id == postId) = some p → callerId = p.user_id →
      (delete_post postId callerId db).1 = .ok "Post deleted successfully" ∧
      (delete_post postId callerId db).2.find? (fun q => q.id == postId) =
        none) := by
  refine ⟨?_, ?_, ?_⟩
  · intro hnone
    simp [delete_post, hnone]
  · intro p hfind hown
    simp [delete_post, hfind, beq_iff_eq, hown]
  · intro p hfind hown
    have hbeq : (callerId == p.user_id) = true := beq_iff_eq.mpr hown
    constructor
    · simp [delete_post, hfind, hbeq]
    · rw [show (delete_post postId callerId db).2 =
          db.eraseP (fun q => q.id == postId) by simp [delete_post, hfind, hbeq]]
      exact find?_eraseP_of_nodup postId db hnd

/-- A concrete post owned by `"u1"`. -/
def postW : Post :=
  { id := "p1", user_id := "u1", title := some "t", content := some "c",
    url := "https://ik.io/a.png", file_type := "image", file_name := "a.png",
    created_at := 3 }

/-- Witness for C5: on a one-row table, the owner's delete succeeds and the
row becomes unretrievable, and a stranger's delete fails with 403. -/
theorem C5_delete_post_witness :
    ((delete_post "p1" "u1" [postW]).1 = .ok "Post deleted successfully" ∧
      (delete_post "p1" "u1" [postW]).2.find? (fun q => q.id == "p1") = none) ∧
    delete_post "p1" "u2" [postW] =
      (.err 403 "Not authorized to delete this post", [postW]) := by
  have h1 := C5_delete_post "p1" "u1" [postW] (by decide)
  have h2 := C5_delete_post "p1" "u2" [postW] (by decide)
  exact ⟨h1.2.2 postW (by decide) (by decide),
    h2.2.1 postW (by decide) (by decide)⟩

/-! ### C6 -/

theorem userEmailDict_eq_none (users : List UserRec) (uid : String)
    (h : ∀ u ∈ users, ¬ u.id = uid) : userEmailDict users uid = none := by
  unfold userEmailDict
  rw [show users.reverse.find? (fun u => u.id == uid) = none from ?_]
  · rfl
  · rw [List.find?_eq_none]
    intro u hu hbeq
    exact h u (List.mem_reverse.mp hu) (eq_of_beq hbeq)

theorem userEmailDict_eq_some (users : List UserRec)
    (hnd : (users.map UserRec.id).Nodup) (u : UserRec) (hu : u ∈ users)
    (uid : String) (hid : u.id = uid) :
    userEmailDict users uid = some u.email := by
  unfold userEmailDict
  have hsome : (users.reverse.find? (fun v => v.id == uid)).isSome := by
    rw [List.find?_isSome]
    exact ⟨u, List.mem_reverse.mpr hu, beq_iff_eq.mpr hid⟩
  obtain ⟨v, hv⟩ := Option.isSome_iff_exists.mp hsome
  have hvmem : v ∈ users := List.mem_reverse.mp (List.mem_of_find?_eq_some hv)
  have hvid : v.id = uid :=
    eq_of_beq (List.find?_some (p := fun v : UserRec => v.id == uid) hv)
  have : u = v :=
    List.inj_on_of_nodup_map hnd hu hvmem (by rw [hid, hvid])
  rw [hv, ← this]
  rfl

/-- A post whose author's stored email is literally `"Unknown"`. -/
def cexPost : Post :=
  { id := "p1", user_id := "u1", title := none, content := none,
    url := "https://ik.io/a.png", file_type := "image", file_name := "a.png",
    created_at := 1 }

/-- A user row whose email is the literal string `"Unknown"`. -/
def cexUser : UserRec := { id := "u1", email := "Unknown" }

/-- Counterexample to C6 as stated: when a User row's stored email is the
literal string `"Unknown"`, the feed shows `"Unknown"` even though a matching
User row exists, so `email = "Unknown"` is not equivalent to the absence of a
matching row. -/
theorem C6_counterexample :
    ∃ d, d ∈ (get_feed "u2" [cexPost] [cexUser]).1 ∧ d.email = "Unknown" ∧
      cexUser ∈ [cexUser] ∧ cexUser.id = d.user_id := by
  refine ⟨decorate "u2" [cexUser] cexPost, by decide, by decide, by decide,
    by decide⟩

/-- C6 (amended): in every feed entry, `is_owner` is true iff the post's
`user_id` equals the caller's id, `email` equals the author's email whenever a
User row with that id exists, and `email` is `"Unknown"` whenever no matching
User row exists.  (The two email cases coincide when a stored email is
literally `"Unknown"`, so "Unknown" does not imply a missing author.) -/
theorem C6_feed_decoration (callerId : String) (db : List Post)
    (users : List UserRec) (hnd : (users.map UserRec.id).Nodup) :
    ∀ d ∈ (get_feed callerId db users).1,
      (d.is_owner = true ↔ d.user_id = callerId) ∧
      (∀ u ∈ users, u.id = d.user_id → d.email = u.email) ∧
      ((∀ u ∈ users, ¬ u.id = d.user_id) → d.email = "Unknown") := by
  intro d hd
  simp only [get_feed, List.mem_map] at hd
  obtain ⟨p, _, hdp⟩ := hd
  subst hdp
  refine ⟨?_, ?_, ?_⟩
  · simp [decorate]
  · intro u hu hid
    simp only [decorate]
    rw [userEmailDict_eq_some users hnd u hu p.user_id hid]
    rfl
  · intro hnone
    simp only [decorate]
    rw [userEmailDict_eq_none users p.user_id hnone]
    rfl

/-- Witness for the amended C6: a feed over one post and its author. -/
theorem C6_feed_decoration_witness :
    decorate "u2" [cexUser] cexPost ∈ (get_feed "u2" [cexPost] [cexUser]).1 ∧
    ((decorate "u2" [cexUser] cexPost).is_owner = true ↔
      (decorate "u2" [cexUser] cexPost).user_id = "u2") := by
  have hmem : decorate "u2" [cexUser] cexPost ∈
      (get_feed "u2" [cexPost] [cexUser]).1 := by decide
  exact ⟨hmem,
    (C6_feed_decoration "u2" [cexPost] [cexUser] (by decide) _ hmem).1⟩

/-! ### C7 -/

theorem feed_map_toPost (callerId : String) (db : List Post)
    (users : List UserRec) :
    ((get_feed callerId db users).1).map DecoratedPost.toPost =
      List.insertionSort feedOrder db := by
  simp only [get_feed, List.map_map]
  exact List.map_id''
    (fun p => rfl : ∀ p, (DecoratedPost.toPost ∘ decorate callerId users) p = p) _

/-- C7: the feed's `posts` sequence is exactly all Post rows (a permutation of
the table) ordered by `created_at` descending, and `count` equals its
length. -/
theorem C7_feed_order_count (callerId : String) (db : List Post)
    (users : List UserRec) :
    List.Perm (((get_feed callerId db users).1).map DecoratedPost.toPost) db ∧
    List.Sorted feedOrder
      (((get_feed callerId db users).1).map DecoratedPost.toPost) ∧
    (get_feed callerId db users).2 = ((get_feed callerId db users).1).length := by
  refine ⟨?_, ?_, rfl⟩
  · rw [feed_map_toPost]
    exact List.perm_insertionSort feedOrder db
  · rw [feed_map_toPost]
    exact List.sorted_insertionSort feedOrder db

/-! ### C8 -/

/-- A dict-shaped gateway result whose `name` is the empty string. -/
def resDictEmptyName : UploadResult :=
  { shape := .dict, urlField := some (.vstr "https://ik.io/x"),
    nameField := some (.vstr "") }

/-- The same result delivered as a bare-attribute object. -/
def resObjEmptyName : UploadResult :=
  { shape := .obj, urlField := some (.vstr "https://ik.io/x"),
    nameField := some (.vstr "") }

/-- Counterexample to C8 as stated: two successful uploads with identical
filename, url and gateway name (`""`) — differing only in whether the result
arrived as a dict or as an object — persist different `file_name`s (the dict
path falls back to the filename on any falsy name, the object path keeps a
present-but-empty name), so `file_name` is not determined by the returned
name and filename alone, and the fallback does not fire uniformly. -/
theorem C8_counterexample :
    ∃ p1 p2,
      (upload_file reqW ⟨true, .returns resDictEmptyName, true⟩ []
        "id1" 5).response = .ok p1 ∧
      (upload_file reqW ⟨true, .returns resObjEmptyName, true⟩ []
        "id1" 5).response = .ok p2 ∧
      resDictEmptyName.nameField = resObjEmptyName.nameField ∧
      resDictEmptyName.urlField = resObjEmptyName.urlField ∧
      p1.file_name = "a.png" ∧ p2.file_name = "" ∧
      ¬ p1.file_name = p2.file_name := by
  refine ⟨okPayload reqW "id1" "https://ik.io/x" "a.png",
    okPayload reqW "id1" "https://ik.io/x" "", ?_, ?_, ?_, ?_, ?_, ?_, ?_⟩ <;>
    decide

/-- C8 (amended): on every successful upload the persisted `file_name` is the
defensively extracted name: for dict-shaped results, the gateway's name when
it is a non-empty string and the original filename whenever the name entry is
falsy (absent, `None`, or `""`); for object-shaped results, the attribute's
value whenever the attribute is present — even when it is the empty string —
and the original filename only when the attribute is absent.  (An
object-shaped result whose name attribute is `None` never yields a successful
upload, since the `NOT NULL` insert fails.) -/
theorem C8_file_name (req : UploadRequest) (env : Env) (db : List Post)
    (newId : String) (now : Nat) (pay : UploadPayload) (r : UploadResult)
    (hg : env.gateway = .returns r)
    (h : (upload_file req env db newId now).response = .ok pay) :
    extractName r req.filename = .vstr pay.file_name ∧
    (r.shape = .obj → r.nameField = none → pay.file_name = req.filename) ∧
    (r.shape = .obj → ∀ v, r.nameField = some v → v = .vstr pay.file_name) ∧
    (r.shape = .dict → (r.nameField.getD .vnone).truthy = false →
      pay.file_name = req.filename) ∧
    (r.shape = .dict → ∀ s, r.nameField = some (.vstr s) → ¬ s = "" →
      pay.file_name = s) := by
  obtain ⟨r', u, n, henv, hu, hue, hn, hpay, hdb⟩ :=
    upload_file_ok_inv req env db newId now pay h
  rw [henv] at hg
  cases GatewayOutcome.returns.inj hg
  subst hpay
  have hfn : (okPayload req newId u n).file_name = n := rfl
  rw [hfn]
  refine ⟨hn, ?_, ?_, ?_, ?_⟩
  · intro hsh hnf
    rw [show extractName r req.filename = .vstr req.filename by
      simp [extractName, hsh, hnf]] at hn
    exact (PyVal.vstr.inj hn).symm
  · intro hsh v hnf
    rw [show extractName r req.filename = v by
      simp [extractName, hsh, hnf]] at hn
    exact hn
  · intro hsh htr
    rw [show extractName r req.filename = .vstr req.filename by
      simp [extractName, hsh, htr]] at hn
    exact (PyVal.vstr.inj hn).symm
  · intro hsh s hnf hne
    rw [show extractName r req.filename = .vstr s by
      simp [extractName, hsh, hnf, PyVal.truthy, hne]] at hn
    exact (PyVal.vstr.inj hn).symm

/-- Witness for the amended C8 at the benign dict-shaped run. -/
theorem C8_file_name_witness :
    (upload_file reqW envW [] "id1" 5).response = .ok payW ∧
    extractName resW reqW.filename = .vstr payW.file_name := by
  have h : (upload_file reqW envW [] "id1" 5).response = .ok payW := by decide
  exact ⟨h, (C8_file_name reqW envW [] "id1" 5 payW resW rfl h).1⟩

/-! ### C9 -/

/-- Counterexample to C9 as stated: the owner's successful delete returns the
JSON body `{"detail": "Post deleted successfully"}`, which FastAPI reports
with status 200, not 204 "no content". -/
theorem C9_counterexample :
    (delete_post "p1" "u1" [postW]).1 = .ok "Post deleted successfully" ∧
    (delete_post "p1" "u1" [postW]).1.status = 200 ∧
    ¬ (delete_post "p1" "u1" [postW]).1.status = 204 := by
  refine ⟨?_, ?_, ?_⟩ <;> decide

/-- C9 (amended): every successful delete of an owned Post reports status 200
with the body detail `"Post deleted successfully"` (not 204 "no content"). -/
theorem C9_delete_status (postId callerId : String) (db : List Post)
    (p : Post) (hfind : db.find? (fun q => q.id == postId) = some p)
    (hown : callerId = p.user_id) :
    (delete_post postId callerId db).1 = .ok "Post deleted successfully" ∧
    (delete_post postId callerId db).1.status = 200 := by
  have hbeq : (callerId == p.user_id) = true := beq_iff_eq.mpr hown
  constructor
  · simp [delete_post, hfind, hbeq]
  · rw [show (delete_post postId callerId db).1 =
        .ok "Post deleted successfully" by simp [delete_post, hfind, hbeq]]
    rfl

/-- Witness for the amended C9 on a one-row table. -/
theorem C9_delete_status_witness :
    (delete_post "p1" "u1" [postW]).1 = .ok "Post deleted successfully" ∧
    (delete_post "p1" "u1" [postW]).1.status = 200 :=
  C9_delete_status "p1" "u1" [postW] postW (by decide) (by decide)

/-! ### C10 -/

/-- C10: whenever `title` or `content` is omitted from the upload form, the
created Post stores the empty string — never null — for that field (the
columns are nullable, hence `Option`-valued, and the stored value is
`some ""`), and the returned payload carries the same empty string. -/
theorem C10_omitted_fields_empty (req : UploadRequest) (env : Env)
    (db : List Post) (newId : String) (now : Nat) (pay : UploadPayload)
    (h : (upload_file req env db newId now).response = .ok pay) :
    ∃ p, (upload_file req env db newId now).db = db ++ [p] ∧
      (req.title = none → p.title = some "" ∧ pay.title = some "") ∧
      (req.content = none → p.content = some "" ∧ pay.content = some "") := by
  obtain ⟨r, u, n, henv, hu, hue, hn, hpay, hdb⟩ :=
    upload_file_ok_inv req env db newId now pay h
  subst hpay
  refine ⟨insertedPost req newId now u n, hdb, ?_, ?_⟩
  · intro ht
    constructor
    · simp [insertedPost, ht]
    · simp [okPayload, ht]
  · intro hc
    constructor
    · simp [insertedPost, hc]
    · simp [okPayload, hc]

/-- Witness for C10: the benign run omits `content`, and a variant also
omitting `title` stores and returns `some ""` for both fields. -/
theorem C10_omitted_fields_empty_witness :
    (upload_file { reqW with title := none } envW [] "id1" 5).response =
      .ok (okPayload { reqW with title := none } "id1" "https://ik.io/a.png"
        "a_1.png") ∧
    ∃ p, (upload_file { reqW with title := none } envW [] "id1" 5).db =
      [] ++ [p] ∧
      ({ reqW with title := none } : UploadRequest).title = none ∧
      (p.title = some "" ∧
        (okPayload { reqW with title := none } "id1" "https://ik.io/a.png"
          "a_1.png").title = some "") := by
  have h : (upload_file { reqW with title := none } envW [] "id1" 5).response =
      .ok (okPayload { reqW with title := none } "id1" "https://ik.io/a.png"
        "a_1.png") := by decide
  obtain ⟨p, hdb, ht, _⟩ :=
    C10_omitted_fields_empty { reqW with title := none } envW [] "id1" 5
      (okPayload { reqW with title := none } "id1" "https://ik.io/a.png"
        "a_1.png") h
  exact ⟨h, p, hdb, rfl, ht rfl⟩

end App
